import Mathlib

/-!
Verification of `mockstep.py`, a telnet client that drives an Android
emulator's acceleration sensor with a synthetic walking signal and renders
it as a text bar graph.

Shallow embedding conventions:
* Python floats are modelled as exact rationals (`ℚ`) for the plotter and
  the wire formatter, and as reals (`ℝ`) for the sine-based signal
  generator (`math.sin` becomes `Real.sin`).
* `f"{v:.2f}"` formatting is modelled as round-half-even to two decimal
  digits over `ℚ` (`formatFixed2`).
* Python `int()` applied to a nonnegative float truncates toward zero;
  `ratTrunc` models it over `ℚ`.
* Network I/O is modelled as traces of events.  `run_simulation` becomes a
  trace function parametrised by where the loop is interrupted (after `k`
  full ticks plus the first `p` effects of tick `k`) and by which
  transmissions fail; `connect_to_emulator` becomes a trace-and-result
  function parametrised by the peer's byte streams.
* `telnetlib`'s `read_until(b"OK")` is modelled by `readUntilOK`: the
  shortest prefix of the stream ending in `"OK"`, or the whole stream when
  the terminator never arrives (timeout).
-/

/-- `GRAPH_WIDTH = 50` from mockstep.py. -/
def GRAPH_WIDTH : ℕ := 50

/-- `AMPLITUDE = 2.0` from mockstep.py. -/
def AMPLITUDE : ℚ := 2.0

/-- `Y_BASELINE = 9.8` from mockstep.py. -/
def Y_BASELINE : ℚ := 9.8

/-- Python `int()` on a rational: truncation toward zero. -/
def ratTrunc (q : ℚ) : ℤ :=
  if q < 0 then -⌊-q⌋ else ⌊q⌋

/-- Round-half-even to the nearest integer, the rounding used by Python's
fixed-point float formatting. -/
def roundHalfEven (q : ℚ) : ℤ :=
  if q - ⌊q⌋ < 1/2 then ⌊q⌋
  else if 1/2 < q - ⌊q⌋ then ⌊q⌋ + 1
  else if ⌊q⌋ % 2 = 0 then ⌊q⌋ else ⌊q⌋ + 1

/-- Model of Python `f"{q:.2f}"`: sign, integer part, then exactly two
decimal digits. -/
def formatFixed2 (q : ℚ) : String :=
  let n := roundHalfEven (q * 100)
  let m := n.natAbs
  ((if n < 0 then "-" else "") ++ toString (m / 100)) ++
    String.mk ['.', Nat.digitChar (m / 10 % 10), Nat.digitChar (m % 10)]

/-- Model of Python `f"{q:5.2f}"`: right-align to a minimum width of `w`
characters by padding with spaces on the left. -/
def padLeft (w : ℕ) (s : String) : String :=
  String.mk (List.replicate (w - s.length) ' ') ++ s

/-- The local `bar_length` computation of `plot_data_point` (mockstep.py
lines 16-22): clamp to `[Y_BASELINE - AMPLITUDE, Y_BASELINE + AMPLITUDE]`,
normalize, scale by `GRAPH_WIDTH`, truncate with `int()`. -/
def bar_length (y_value : ℚ) : ℕ :=
  let min_y := Y_BASELINE - AMPLITUDE
  let max_y := Y_BASELINE + AMPLITUDE
  let y_value_clamped := max min_y (min y_value max_y)
  let normalized_value := (y_value_clamped - min_y) / (max_y - min_y)
  (ratTrunc (normalized_value * (GRAPH_WIDTH : ℚ))).toNat

/-- `plot_data_point` (mockstep.py lines 12-24): the printed line
`f"{y_value:5.2f} | {bar}"` with `bar = '#' * bar_length`. -/
def plot_data_point (y_value : ℚ) : String :=
  padLeft 5 (formatFixed2 y_value) ++ " | " ++
    String.mk (List.replicate (bar_length y_value) '#')

/-- The command string built by `set_sensor_data` (mockstep.py line 57):
`f'sensor set {sensor} {x:.2f}:{y:.2f}:{z:.2f}\n'`. -/
def sensor_command (sensor : String) (x y z : ℚ) : String :=
  "sensor set " ++ sensor ++ " " ++ formatFixed2 x ++ ":" ++
    formatFixed2 y ++ ":" ++ formatFixed2 z ++ "\n"

/-- `generate_walking_acceleration` (mockstep.py lines 63-73):
`x = 0`, `y = Y_BASELINE + AMPLITUDE * sin(frequency * step)`, `z = 0`
with `frequency = 1.25`. -/
noncomputable def generate_walking_acceleration (step : ℕ) : ℝ × ℝ × ℝ :=
  let frequency : ℝ := 1.25
  let x : ℝ := 0
  let y : ℝ := (Y_BASELINE : ℚ) + (AMPLITUDE : ℚ) * Real.sin (frequency * step)
  let z : ℝ := 0
  (x, y, z)

/-- The per-tick edge-detection state of `run_simulation`
(`previous_y`, `was_rising`). -/
structure EdgeState (α : Type) where
  previous_y : α
  was_rising : Bool

/-- One execution of the edge-detection block of `run_simulation`
(mockstep.py lines 90-95): returns whether the STEP IMPACT marker is
emitted for this sample, and the updated state. -/
def edge_step {α : Type} [LinearOrder α] (st : EdgeState α) (y : α) :
    Bool × EdgeState α :=
  let is_rising_now : Bool := decide (y > st.previous_y)
  (st.was_rising && !is_rising_now, ⟨y, is_rising_now⟩)

/-- Feed a list of vertical values through the edge detector, collecting
for each tick whether the marker is emitted. -/
def edge_run {α : Type} [LinearOrder α] (st : EdgeState α) :
    List α → List Bool
  | [] => []
  | y :: ys =>
    let r := edge_step st y
    r.1 :: edge_run r.2 ys

/-! ## Protocol client: `connect_to_emulator` -/

/-- Model of `telnetlib`'s `read_until(b"OK")`: the shortest prefix of the
incoming stream that ends in `"OK"`, or the whole stream when the
terminator never arrives before the timeout. -/
def readUntilOK : List Char → List Char
  | [] => []
  | c :: rest =>
    if c = 'O' ∧ rest.head? = some 'K' then ['O', 'K']
    else c :: readUntilOK rest

/-- `readUntilOK` lifted to `String`. -/
def readUntilOKStr (s : String) : String :=
  String.mk (readUntilOK s.data)

/-- Python's substring test `needle in hay` (used for `b"KO" in response`). -/
def substrIn (needle : List Char) : List Char → Bool
  | [] => needle.isEmpty
  | c :: rest => needle.isPrefixOf (c :: rest) || substrIn needle rest

/-- The value returned by a successful `connect_to_emulator`: an open,
authenticated session. -/
structure Session where
  authenticated : Bool
deriving DecidableEq

/-- Observable network/console effects of `connect_to_emulator`. -/
inductive NetEvent where
  | connect (host : String) (port : ℕ)
  | readUntil (data : String)
  | write (data : String)
  | consolePrint (msg : String)
  | close
deriving DecidableEq

/-- Python's `if not auth_token:` — true when the token is `None` or the
empty string. -/
def tokenMissing : Option String → Bool
  | none => true
  | some s => s.isEmpty

/-- `NetEvent.close` recogniser. -/
def isNetClose : NetEvent → Bool
  | NetEvent.close => true
  | _ => false

/-- `NetEvent.write` recogniser. -/
def isNetWrite : NetEvent → Bool
  | NetEvent.write _ => true
  | _ => false

/-- `connect_to_emulator` (mockstep.py lines 27-50), as a trace function.
`connectOk` says whether `telnetlib.Telnet(host, port, timeout=10)`
succeeds; `greetingStream` and `authStream` are the peer's byte streams
consumed by the two `read_until(b"OK")` calls.  Returns the list of
network/console events in order and the result (`none` models returning
`None`). -/
def connect_to_emulator (host : String) (port : ℕ)
    (auth_token : Option String) (connectOk : Bool)
    (greetingStream authStream : String) :
    List NetEvent × Option Session :=
  if connectOk = false then
    ([NetEvent.connect host port,
      NetEvent.consolePrint "An error occurred during connection."], none)
  else
    let ev0 := [NetEvent.connect host port,
                NetEvent.readUntil (readUntilOKStr greetingStream)]
    if tokenMissing auth_token then
      (ev0 ++ [NetEvent.consolePrint "Authentication token is missing..."],
       none)
    else
      let tok := auth_token.getD ""
      let response := readUntilOKStr authStream
      let ev1 := ev0 ++ [NetEvent.write ("auth " ++ tok ++ "\n"),
                         NetEvent.readUntil response]
      if substrIn "KO".data response.data then
        (ev1 ++ [NetEvent.consolePrint "Authentication failed."], none)
      else
        (ev1 ++ [NetEvent.consolePrint
          ("Connected and authenticated with emulator on port " ++
            toString port ++ ".")], some ⟨true⟩)

/-! ## Simulation loop: `run_simulation` -/

/-- Observable effects of `run_simulation`.  `send` records a
`set_sensor_data` write attempt with its raw coordinates (the wire string
is `sensor_command` applied to them); `errorLog` is the `print` in
`set_sensor_data`'s `except` branch; `plot` records printing
`plot_data_point y`; `marker` is the STEP IMPACT line; `close` is
`emulator.close()`. -/
inductive Event where
  | send (sensor : String) (x y z : ℝ)
  | errorLog
  | plot (y : ℝ)
  | marker
  | consolePrint (msg : String)
  | close

/-- `Event.close` recogniser. -/
def isClose : Event → Bool
  | Event.close => true
  | _ => false

/-- `Event.send` recogniser. -/
def isSend : Event → Bool
  | Event.send _ _ _ _ => true
  | _ => false

/-- `Event.plot` recogniser. -/
def isPlot : Event → Bool
  | Event.plot _ => true
  | _ => false

/-- `Event.errorLog` recogniser. -/
def isErrorLog : Event → Bool
  | Event.errorLog => true
  | _ => false

/-- `set_sensor_data` (mockstep.py lines 52-61) as a trace: the write
attempt, followed by the logged error message when the transmission fails.
All exceptions are caught inside, so the caller always continues. -/
def set_sensor_data_events (fail : Bool) (sensor : String) (x y z : ℝ) :
    List Event :=
  Event.send sensor x y z :: (if fail then [Event.errorLog] else [])

/-- One full iteration of the `while True` body of `run_simulation`
(mockstep.py lines 85-97) at tick `i` with edge state `st`: transmit
(possibly failing, per `fails i`), plot, emit the marker when a
rising-to-non-rising transition is detected, and return the updated edge
state. -/
noncomputable def tick_events (fails : ℕ → Bool) (i : ℕ)
    (st : EdgeState ℝ) : List Event × EdgeState ℝ :=
  let s := generate_walking_acceleration i
  let e := edge_step st s.2.1
  (set_sensor_data_events (fails i) "acceleration" s.1 s.2.1 s.2.2 ++
     [Event.plot s.2.1] ++ (if e.1 then [Event.marker] else []),
   e.2)

/-- `k` full iterations of the loop body starting at tick `i` with edge
state `st`. -/
noncomputable def loop_run (fails : ℕ → Bool) :
    ℕ → ℕ → EdgeState ℝ → List Event × EdgeState ℝ
  | _, 0, st => ([], st)
  | i, Nat.succ k, st =>
    let r := tick_events fails i st
    let rest := loop_run fails (i + 1) k r.2
    (r.1 ++ rest.1, rest.2)

/-- The `finally` block of `run_simulation` (mockstep.py lines 100-104):
print, send the reset command `(0, 9.8, 0)` (whose own transmission may
fail and be logged), close the connection, print. -/
def cleanup_events (resetFails : Bool) : List Event :=
  Event.consolePrint "Resetting sensor data." ::
    (set_sensor_data_events resetFails "acceleration" 0 9.8 0 ++
      [Event.close, Event.consolePrint "Telnet connection closed."])

/-- `run_simulation` (mockstep.py lines 75-104) as a trace.  The loop is
infinite; termination is modelled by the point at which `KeyboardInterrupt`
(`interrupted = true`, printing "Stopping simulation.") or a fatal error
(`interrupted = false`) aborts it: after `k` completed ticks and the first
`p` effects of tick `k`.  Either way the `finally` block
(`cleanup_events`) runs. -/
noncomputable def run_simulation (k p : ℕ) (fails : ℕ → Bool)
    (interrupted resetFails : Bool) : List Event :=
  let init : EdgeState ℝ := ⟨((Y_BASELINE : ℚ) : ℝ), false⟩
  let r := loop_run fails 0 k init
  Event.consolePrint "\nSimulating walking steps and displaying live graph..." ::
    Event.consolePrint (String.mk (List.replicate (GRAPH_WIDTH + 8) '-')) ::
    (r.1 ++ (tick_events fails k r.2).1.take p ++
      (if interrupted then [Event.consolePrint "\nStopping simulation."] else []) ++
      cleanup_events resetFails)

/-- The portion of a `run_simulation` trace that precedes the `finally`
block: the two banner prints, the completed ticks, the partial tick cut
short by the interruption, and the "Stopping simulation." print on the
`KeyboardInterrupt` path. -/
noncomputable def pre_events (k p : ℕ) (fails : ℕ → Bool)
    (interrupted : Bool) : List Event :=
  let init : EdgeState ℝ := ⟨((Y_BASELINE : ℚ) : ℝ), false⟩
  let r := loop_run fails 0 k init
  Event.consolePrint "\nSimulating walking steps and displaying live graph..." ::
    Event.consolePrint (String.mk (List.replicate (GRAPH_WIDTH + 8) '-')) ::
    (r.1 ++ (tick_events fails k r.2).1.take p ++
      (if interrupted then [Event.consolePrint "\nStopping simulation."] else []))

/-! ## Helper lemmas -/

theorem ratTrunc_eq_floor {q : ℚ} (h : 0 ≤ q) : ratTrunc q = ⌊q⌋ := by
  rw [ratTrunc, if_neg (not_lt.2 h)]

theorem digitChar_isDigit {n : ℕ} (h : n < 10) :
    (Nat.digitChar n).isDigit = true := by
  interval_cases n <;> decide

theorem formatFixed2_two_decimals (q : ℚ) :
    ∃ s c₁ c₂, formatFixed2 q = s ++ String.mk ['.', c₁, c₂] ∧
      c₁.isDigit = true ∧ c₂.isDigit = true := by
  refine ⟨(if roundHalfEven (q * 100) < 0 then "-" else "") ++
      toString ((roundHalfEven (q * 100)).natAbs / 100),
    Nat.digitChar ((roundHalfEven (q * 100)).natAbs / 10 % 10),
    Nat.digitChar ((roundHalfEven (q * 100)).natAbs % 10), rfl, ?_, ?_⟩
  · exact digitChar_isDigit (Nat.mod_lt _ (by norm_num))
  · exact digitChar_isDigit (Nat.mod_lt _ (by norm_num))

theorem formatFixed2_98 : formatFixed2 (9.8 : ℚ) = "9.80" := by
  have h : roundHalfEven ((9.8 : ℚ) * 100) = 980 := by norm_num [roundHalfEven]
  simp only [formatFixed2, h]
  rfl

theorem formatFixed2_0 : formatFixed2 (0 : ℚ) = "0.00" := by
  have h : roundHalfEven ((0 : ℚ) * 100) = 0 := by norm_num [roundHalfEven]
  simp only [formatFixed2, h]
  rfl

/-! ## Claim theorems -/

/-- C3: feeding the edge detector the vertical values
`[9.8, 10.5, 11.0, 10.2, 9.9]`, starting from `previous_y = 9.8`,
`was_rising = false`, emits exactly one STEP IMPACT marker, and it is
emitted while processing the fourth value (index 3), detecting the peak at
index 2. -/
theorem edge_detection_sequence :
    edge_run ⟨(9.8 : ℚ), false⟩ [9.8, 10.5, 11.0, 10.2, 9.9] =
      [false, false, false, true, false] ∧
    (edge_run ⟨(9.8 : ℚ), false⟩ [9.8, 10.5, 11.0, 10.2, 9.9]).count true = 1 := by
  constructor <;> norm_num [edge_run, edge_step]

/-- C4: for every step index `n`, `generate_walking_acceleration n` is
`(0, 9.8 + 2.0 * sin (1.25 * n), 0)`, and the vertical component always
lies in `[7.8, 11.8]`.  (Determinism is inherent: the generator is a
function of `n` alone.) -/
theorem generate_walking_acceleration_spec (n : ℕ) :
    (generate_walking_acceleration n).1 = 0 ∧
    (generate_walking_acceleration n).2.2 = 0 ∧
    (generate_walking_acceleration n).2.1 =
      9.8 + 2.0 * Real.sin (1.25 * n) ∧
    7.8 ≤ (generate_walking_acceleration n).2.1 ∧
    (generate_walking_acceleration n).2.1 ≤ 11.8 := by
  have hy : (generate_walking_acceleration n).2.1 =
      9.8 + 2.0 * Real.sin (1.25 * n) := by
    simp only [generate_walking_acceleration, Y_BASELINE, AMPLITUDE]
    norm_num
  refine ⟨rfl, rfl, hy, ?_, ?_⟩
  · rw [hy]
    nlinarith [Real.neg_one_le_sin ((1.25 : ℝ) * n)]
  · rw [hy]
    nlinarith [Real.sin_le_one ((1.25 : ℝ) * n)]

/-- C6: `set_sensor_data` formats the wire command as
`sensor set <sensor> <x>:<y>:<z>\n`, each coordinate with exactly two
decimal digits; in particular `(0, 9.8, 0)` for sensor `"acceleration"`
yields exactly `"sensor set acceleration 0.00:9.80:0.00\n"`. -/
theorem sensor_command_spec (sensor : String) (x y z : ℚ) :
    sensor_command sensor x y z =
      "sensor set " ++ sensor ++ " " ++ formatFixed2 x ++ ":" ++
        formatFixed2 y ++ ":" ++ formatFixed2 z ++ "\n" ∧
    (∀ q : ℚ, ∃ s c₁ c₂, formatFixed2 q = s ++ String.mk ['.', c₁, c₂] ∧
      c₁.isDigit = true ∧ c₂.isDigit = true) ∧
    sensor_command "acceleration" 0 9.8 0 =
      "sensor set acceleration 0.00:9.80:0.00\n" := by
  refine ⟨rfl, formatFixed2_two_decimals, ?_⟩
  simp only [sensor_command, formatFixed2_98, formatFixed2_0]
  rfl

/-- C7: `plot_data_point v` clamps `v` to
`[9.8 - 2.0, 9.8 + 2.0]`, normalizes `t = (clamped - min)/(max - min)`,
and prints the original unclamped value right-aligned to 5 characters with
two decimals, the separator `" | "`, then a bar of exactly `⌊t * 50⌋`
repeated characters.  (Purity is inherent: it is a function of `v`.) -/
theorem plot_data_point_spec (v : ℚ) :
    plot_data_point v =
      padLeft 5 (formatFixed2 v) ++ " | " ++
        String.mk (List.replicate
          (⌊(max (9.8 - 2.0) (min v (9.8 + 2.0)) - (9.8 - 2.0)) /
              ((9.8 + 2.0) - (9.8 - 2.0)) * 50⌋).toNat '#') := by
  have e1 : (Y_BASELINE - AMPLITUDE : ℚ) = 9.8 - 2.0 := rfl
  have e2 : (Y_BASELINE + AMPLITUDE : ℚ) = 9.8 + 2.0 := rfl
  have e3 : ((GRAPH_WIDTH : ℕ) : ℚ) = 50 := by norm_num [GRAPH_WIDTH]
  have h0 : (0 : ℚ) ≤ (max (9.8 - 2.0) (min v (9.8 + 2.0)) - (9.8 - 2.0)) /
      ((9.8 + 2.0) - (9.8 - 2.0)) * 50 := by
    apply mul_nonneg
    · apply div_nonneg
      · exact sub_nonneg.2 (le_max_left _ _)
      · norm_num
    · norm_num
  simp only [plot_data_point, bar_length, e1, e2, e3, ratTrunc_eq_floor h0]

/-- C8: the plotter's bar length is monotone in the input value, and
out-of-range values are clamped before measurement (`bar_length` of `v`
equals `bar_length` of `v` clamped to
`[Y_BASELINE - AMPLITUDE, Y_BASELINE + AMPLITUDE]`); being a total
function, it never crashes. -/
theorem bar_length_mono_clamp :
    (∀ v₁ v₂ : ℚ, v₁ < v₂ → bar_length v₁ ≤ bar_length v₂) ∧
    (∀ v : ℚ, bar_length v =
      bar_length (max (Y_BASELINE - AMPLITUDE) (min v (Y_BASELINE + AMPLITUDE)))) := by
  constructor
  · intro v₁ v₂ h
    have hden : (0:ℚ) < (Y_BASELINE + AMPLITUDE) - (Y_BASELINE - AMPLITUDE) := by
      norm_num [Y_BASELINE, AMPLITUDE]
    have hmul : (max (Y_BASELINE - AMPLITUDE) (min v₁ (Y_BASELINE + AMPLITUDE)) -
          (Y_BASELINE - AMPLITUDE)) /
          ((Y_BASELINE + AMPLITUDE) - (Y_BASELINE - AMPLITUDE)) * (GRAPH_WIDTH : ℚ) ≤
        (max (Y_BASELINE - AMPLITUDE) (min v₂ (Y_BASELINE + AMPLITUDE)) -
          (Y_BASELINE - AMPLITUDE)) /
          ((Y_BASELINE + AMPLITUDE) - (Y_BASELINE - AMPLITUDE)) * (GRAPH_WIDTH : ℚ) := by
      apply mul_le_mul_of_nonneg_right
      · refine (div_le_div_iff_of_pos_right hden).2 ?_
        have := max_le_max (le_refl (Y_BASELINE - AMPLITUDE))
          (min_le_min h.le (le_refl (Y_BASELINE + AMPLITUDE)))
        linarith
      · norm_num [GRAPH_WIDTH]
    have h01 : (0:ℚ) ≤ (max (Y_BASELINE - AMPLITUDE) (min v₁ (Y_BASELINE + AMPLITUDE)) -
        (Y_BASELINE - AMPLITUDE)) /
        ((Y_BASELINE + AMPLITUDE) - (Y_BASELINE - AMPLITUDE)) * (GRAPH_WIDTH : ℚ) := by
      apply mul_nonneg
      · exact div_nonneg (sub_nonneg.2 (le_max_left _ _)) hden.le
      · norm_num [GRAPH_WIDTH]
    have h02 : (0:ℚ) ≤ (max (Y_BASELINE - AMPLITUDE) (min v₂ (Y_BASELINE + AMPLITUDE)) -
        (Y_BASELINE - AMPLITUDE)) /
        ((Y_BASELINE + AMPLITUDE) - (Y_BASELINE - AMPLITUDE)) * (GRAPH_WIDTH : ℚ) := by
      apply mul_nonneg
      · exact div_nonneg (sub_nonneg.2 (le_max_left _ _)) hden.le
      · norm_num [GRAPH_WIDTH]
    simp only [bar_length, ratTrunc_eq_floor h01, ratTrunc_eq_floor h02]
    exact Int.toNat_le_toNat (Int.floor_le_floor hmul)
  · intro v
    have hab : (Y_BASELINE - AMPLITUDE : ℚ) ≤ Y_BASELINE + AMPLITUDE := by
      norm_num [Y_BASELINE, AMPLITUDE]
    have h2 : max (Y_BASELINE - AMPLITUDE) (min v (Y_BASELINE + AMPLITUDE)) ≤
        Y_BASELINE + AMPLITUDE := max_le hab (min_le_right _ _)
    have h3 : Y_BASELINE - AMPLITUDE ≤
        max (Y_BASELINE - AMPLITUDE) (min v (Y_BASELINE + AMPLITUDE)) :=
      le_max_left _ _
    simp only [bar_length, min_eq_left h2, max_eq_right h3]

/-- Witness for C8 at concrete inputs `5 < 20`. -/
theorem bar_length_mono_clamp_witness :
    (5 : ℚ) < 20 ∧ bar_length 5 ≤ bar_length 20 :=
  ⟨by norm_num, bar_length_mono_clamp.1 5 20 (by norm_num)⟩

theorem readUntilOK_terminator (l : List Char) :
    "OK".data <:+ readUntilOK l ∨ readUntilOK l = l := by
  induction l with
  | nil => exact Or.inr rfl
  | cons c rest ih =>
    rw [readUntilOK]
    by_cases h : c = 'O' ∧ rest.head? = some 'K'
    · rw [if_pos h]
      exact Or.inl ⟨[], rfl⟩
    · rw [if_neg h]
      rcases ih with h1 | h1
      · exact Or.inl (h1.trans (List.suffix_cons c _))
      · exact Or.inr (by rw [h1])

/-- C5: with a nonempty token, `connect_to_emulator` writes the exact line
`auth <token>\n` and reads the reply up to the `OK` terminator (or the
whole stream on timeout); a reply containing `KO` is rejected (no
session), and a `KO`-free reply yields an authenticated session. -/
theorem auth_protocol (host : String) (port : ℕ) (tok : String)
    (greeting authStream : String) (htok : tok ≠ "") :
    NetEvent.write ("auth " ++ tok ++ "\n") ∈
      (connect_to_emulator host port (some tok) true greeting authStream).1 ∧
    ("OK".data <:+ (readUntilOKStr authStream).data ∨
      readUntilOKStr authStream = authStream) ∧
    (substrIn "KO".data (readUntilOKStr authStream).data = true →
      (connect_to_emulator host port (some tok) true greeting authStream).2 =
        none) ∧
    (substrIn "KO".data (readUntilOKStr authStream).data = false →
      (connect_to_emulator host port (some tok) true greeting authStream).2 =
        some ⟨true⟩) := by
  have hmiss : tokenMissing (some tok) = false := by
    simp only [tokenMissing]
    cases h : tok.isEmpty
    · rfl
    · exact absurd ((String.isEmpty_iff tok).mp h) htok
  have hterm : "OK".data <:+ (readUntilOKStr authStream).data ∨
      readUntilOKStr authStream = authStream := by
    rcases readUntilOK_terminator authStream.data with h | h
    · exact Or.inl h
    · refine Or.inr ?_
      simp only [readUntilOKStr, h]
  refine ⟨?_, hterm, ?_, ?_⟩ <;>
    cases hK : substrIn "KO".data (readUntilOKStr authStream).data <;>
      simp [connect_to_emulator, hmiss, hK]

/-- Witness for C5 with token `"abc"`, greeting `"helloOK"`, auth reply
stream `"OK"`. -/
theorem auth_protocol_witness :
    ("abc" : String) ≠ "" ∧
    (NetEvent.write ("auth " ++ "abc" ++ "\n") ∈
      (connect_to_emulator "localhost" 5554 (some "abc") true "helloOK"
        "OK").1 ∧
    ("OK".data <:+ (readUntilOKStr "OK").data ∨
      readUntilOKStr "OK" = "OK") ∧
    (substrIn "KO".data (readUntilOKStr "OK").data = true →
      (connect_to_emulator "localhost" 5554 (some "abc") true "helloOK"
        "OK").2 = none) ∧
    (substrIn "KO".data (readUntilOKStr "OK").data = false →
      (connect_to_emulator "localhost" 5554 (some "abc") true "helloOK"
        "OK").2 = some ⟨true⟩)) :=
  ⟨by decide, auth_protocol "localhost" 5554 "abc" "helloOK" "OK" (by decide)⟩

/-- C2 (counterexample): with an empty token the code still contacts the
peer before failing — `telnetlib.Telnet` is constructed and the greeting
is consumed before the token check, so the trace contains a connect and a
read even though the result is `None`. -/
theorem empty_token_contacts_peer :
    (connect_to_emulator "localhost" 5554 (some "") true "helloOK" "OK").2 =
      none ∧
    NetEvent.connect "localhost" 5554 ∈
      (connect_to_emulator "localhost" 5554 (some "") true "helloOK" "OK").1 ∧
    NetEvent.readUntil "helloOK" ∈
      (connect_to_emulator "localhost" 5554 (some "") true "helloOK" "OK").1 := by
  decide

/-- C2 (amended): if the token is empty or absent, authentication fails
(no session) with the missing token reported, and no auth line is ever
written — but only after the transport was opened and the greeting
consumed. -/
theorem missing_token_fails_without_write (host : String) (port : ℕ)
    (tok : Option String) (greeting authStream : String)
    (h : tokenMissing tok = true) :
    connect_to_emulator host port tok true greeting authStream =
      ([NetEvent.connect host port,
        NetEvent.readUntil (readUntilOKStr greeting),
        NetEvent.consolePrint "Authentication token is missing..."], none) ∧
    (connect_to_emulator host port tok true greeting authStream).1.countP
      isNetWrite = 0 := by
  constructor <;> simp [connect_to_emulator, h, isNetWrite]

/-- Witness for C2's amended theorem at token `some ""`. -/
theorem missing_token_fails_without_write_witness :
    tokenMissing (some "") = true ∧
    (connect_to_emulator "localhost" 5554 (some "") true "helloOK" "OK" =
      ([NetEvent.connect "localhost" 5554,
        NetEvent.readUntil (readUntilOKStr "helloOK"),
        NetEvent.consolePrint "Authentication token is missing..."], none) ∧
    (connect_to_emulator "localhost" 5554 (some "") true "helloOK"
      "OK").1.countP isNetWrite = 0) :=
  ⟨by decide,
    missing_token_fails_without_write "localhost" 5554 (some "") "helloOK"
      "OK" (by decide)⟩

/-- C10: on every authentication-failure path (empty/absent token, or a
reply containing `KO`) with the transport already opened,
`connect_to_emulator` returns `None` and never closes the transport — the
trace contains no close event, so the connection remains open. -/
theorem auth_failure_no_close (host : String) (port : ℕ)
    (tok : Option String) (greeting authStream : String)
    (h : tokenMissing tok = true ∨
      substrIn "KO".data (readUntilOKStr authStream).data = true) :
    (connect_to_emulator host port tok true greeting authStream).2 = none ∧
    (connect_to_emulator host port tok true greeting authStream).1.countP
      isNetClose = 0 := by
  rcases h with h | h
  · constructor <;> simp [connect_to_emulator, h, isNetClose]
  · cases hm : tokenMissing tok
    · constructor <;> simp [connect_to_emulator, hm, h, isNetClose]
    · constructor <;> simp [connect_to_emulator, hm, isNetClose]

/-- Witness for C10 on the rejected-credentials path (`KO` reply). -/
theorem auth_failure_no_close_witness :
    (tokenMissing (some "abc") = true ∨
      substrIn "KO".data (readUntilOKStr "KO trailing").data = true) ∧
    ((connect_to_emulator "localhost" 5554 (some "abc") true "helloOK"
        "KO trailing").2 = none ∧
    (connect_to_emulator "localhost" 5554 (some "abc") true "helloOK"
        "KO trailing").1.countP isNetClose = 0) :=
  ⟨by decide,
    auth_failure_no_close "localhost" 5554 (some "abc") "helloOK"
      "KO trailing" (by decide)⟩

theorem tick_events_countP (fails : ℕ → Bool) (i : ℕ) (st : EdgeState ℝ) :
    (tick_events fails i st).1.countP isPlot = 1 ∧
    (tick_events fails i st).1.countP isClose = 0 ∧
    (tick_events fails i st).1.countP isErrorLog =
      (if fails i then 1 else 0) := by
  cases hf : fails i <;>
    cases he : (edge_step st (generate_walking_acceleration i).2.1).1 <;>
      simp [tick_events, set_sensor_data_events, hf, he, isPlot, isClose,
        isErrorLog, List.countP_cons, List.countP_append]

theorem loop_run_countP (fails : ℕ → Bool) (k : ℕ) :
    ∀ (i : ℕ) (st : EdgeState ℝ),
      (loop_run fails i k st).1.countP isPlot = k ∧
      (loop_run fails i k st).1.countP isClose = 0 ∧
      (loop_run fails i k st).1.countP isErrorLog =
        (List.range' i k).countP fails := by
  induction k with
  | zero => intro i st; simp [loop_run]
  | succ k ih =>
    intro i st
    obtain ⟨ht1, ht2, ht3⟩ := tick_events_countP fails i st
    obtain ⟨hr1, hr2, hr3⟩ := ih (i + 1) (tick_events fails i st).2
    refine ⟨?_, ?_, ?_⟩ <;>
      simp [loop_run, List.countP_append, List.range'_succ, List.countP_cons,
        ht1, ht2, ht3, hr1, hr2, hr3] <;> omega

/-- C9: a transmission failure is caught inside its own tick: however the
per-tick transmissions fail, `k` loop iterations emit exactly `k` plot
lines (every tick completes and the loop reaches the next tick), exactly
one logged error per failing tick, and no close — a transmit error never
terminates the loop or the session by itself. -/
theorem transmit_error_not_fatal (k i : ℕ) (fails : ℕ → Bool)
    (st : EdgeState ℝ) :
    (loop_run fails i k st).1.countP isPlot = k ∧
    (loop_run fails i k st).1.countP isClose = 0 ∧
    (loop_run fails i k st).1.countP isErrorLog =
      (List.range' i k).countP fails :=
  loop_run_countP fails k i st

/-- C1: every terminating run of the simulation loop — interrupted after
`k` full ticks and `p` effects of the next tick, by cancellation
(`interrupted = true`) or a fatal error — decomposes into a prefix with no
close event followed by the cleanup sequence, which sends exactly one
command, the reset `(0, 9.8, 0)`, and then closes the session; the whole
trace closes the session exactly once, after the reset. -/
theorem run_simulation_shutdown (k p : ℕ) (fails : ℕ → Bool)
    (interrupted resetFails : Bool) :
    run_simulation k p fails interrupted resetFails =
      pre_events k p fails interrupted ++ cleanup_events resetFails ∧
    (pre_events k p fails interrupted).countP isClose = 0 ∧
    cleanup_events resetFails =
      Event.consolePrint "Resetting sensor data." ::
        Event.send "acceleration" 0 9.8 0 ::
        ((if resetFails then [Event.errorLog] else []) ++
          [Event.close, Event.consolePrint "Telnet connection closed."]) ∧
    (cleanup_events resetFails).countP isSend = 1 ∧
    (cleanup_events resetFails).countP isClose = 1 ∧
    (run_simulation k p fails interrupted resetFails).countP isClose = 1 := by
  have hdecomp : run_simulation k p fails interrupted resetFails =
      pre_events k p fails interrupted ++ cleanup_events resetFails := by
    simp [run_simulation, pre_events, List.append_assoc]
  have hloop :=
    (loop_run_countP fails k 0 ⟨((Y_BASELINE : ℚ) : ℝ), false⟩).2.1
  have htick :=
    (tick_events_countP fails k
      (loop_run fails 0 k ⟨((Y_BASELINE : ℚ) : ℝ), false⟩).2).2.1
  have htake :
      ((tick_events fails k
        (loop_run fails 0 k ⟨((Y_BASELINE : ℚ) : ℝ), false⟩).2).1.take
          p).countP isClose = 0 := by
    have hsub := List.Sublist.countP_le isClose
      (List.take_sublist p
        (tick_events fails k
          (loop_run fails 0 k ⟨((Y_BASELINE : ℚ) : ℝ), false⟩).2).1)
    omega
  have hpre : (pre_events k p fails interrupted).countP isClose = 0 := by
    cases interrupted <;>
      simp [pre_events, List.countP_append, List.countP_cons, isClose,
        hloop, htake]
  have hclean : cleanup_events resetFails =
      Event.consolePrint "Resetting sensor data." ::
        Event.send "acceleration" 0 9.8 0 ::
        ((if resetFails then [Event.errorLog] else []) ++
          [Event.close, Event.consolePrint "Telnet connection closed."]) := by
    cases resetFails <;> rfl
  have hsend : (cleanup_events resetFails).countP isSend = 1 := by
    cases resetFails <;>
      simp [cleanup_events, set_sensor_data_events, List.countP_cons,
        List.countP_append, isSend]
  have hcloseclean : (cleanup_events resetFails).countP isClose = 1 := by
    cases resetFails <;>
      simp [cleanup_events, set_sensor_data_events, List.countP_cons,
        List.countP_append, isClose]
  refine ⟨hdecomp, hpre, hclean, hsend, hcloseclean, ?_⟩
  rw [hdecomp, List.countP_append, hpre, hcloseclean]
